import Mathlib

/-!
Shallow embedding of the job-application analyzer repository (files
`app.py` and `api/analyze.py`): the prompt builder shared by both provider
variants, the Gemini-native provider adapter with its response parsing and
exception handling, the OpenRouter ordered substring error classifier, and
the serverless HTTP handler.  Pure functions of the source become Lean
functions; the single outbound network call is modelled by an explicit
call-outcome value passed to the adapter; Python exceptions become an
explicit exception type threaded through the adapter's handlers.
-/

/-! ## Prompt template (identical f-string in `app.py` and `api/analyze.py`) -/

/-- Template text before the interpolated job posting. -/
def promptPre : String :=
  "You are an expert career advisor and job application analyst. Analyze the following job posting and resume to provide comprehensive feedback.\n\nJOB POSTING:\n"

/-- Template text between the job posting and the resume. -/
def promptMid : String := "\n\nUSER RESUME:\n"

/-- Template text between the resume and the first section heading. -/
def secIntro : String := "\n\nPlease provide a detailed analysis in the following format:\n\n"

/-- Section heading 1 of the fixed report format. -/
def head1 : String := "## 🎯 APPLICATION RECOMMENDATION"

/-- Instructional body under heading 1. -/
def body1 : String :=
  "\n[Provide a clear recommendation: Should the user apply for this job? Why or why not? Include a confidence level (High/Medium/Low) and specific reasons.]\n\n"

/-- Section heading 2 of the fixed report format. -/
def head2 : String := "## 📋 JOB PROFILE MATCH ANALYSIS"

/-- Instructional body under heading 2. -/
def body2 : String :=
  "\n[Analyze how well the resume matches the job requirements. Break down:\n- Skills match percentage\n- Experience level alignment\n- Education/qualifications match\n- Key strengths that align with the role\n- Potential gaps or concerns]\n\n"

/-- Section heading 3 of the fixed report format. -/
def head3 : String := "## 🎯 TARGET JOB PROFILES"

/-- Instructional body under heading 3. -/
def body3 : String :=
  "\n[Based on the user\x27s resume, list 5-7 specific job titles/roles they should target. For each role, explain:\n- Why this role fits their profile\n- What experience level (Entry/Junior/Mid/Senior/Lead)\n- Key skills that make them suitable]\n\n"

/-- Section heading 4 of the fixed report format. -/
def head4 : String := "## 📊 EXPERIENCE LEVEL ASSESSMENT"

/-- Instructional body under heading 4. -/
def body4 : String :=
  "\n[Assess the user\x27s experience level based on their resume:\n- Current level (e.g., \"Mid-level with 3-5 years experience\")\n- Appropriate roles for their level\n- What they need to reach the next level]\n\n"

/-- Section heading 5 of the fixed report format. -/
def head5 : String := "## ⏰ TIMING ANALYSIS"

/-- Instructional body under heading 5. -/
def body5 : String :=
  "\n[Provide insights on application timing:\n- Is this a good time to apply for this role? (Consider market trends, hiring seasons)\n- When do major companies typically open roles at this seniority level?\n- Best times of year to apply for similar positions\n- Market demand for this role currently]\n\n"

/-- Section heading 6 of the fixed report format. -/
def head6 : String := "## 💡 RECOMMENDATIONS"

/-- Instructional body under heading 6. -/
def body6 : String :=
  "\n[Provide actionable recommendations:\n- What to emphasize in their application\n- Skills to highlight\n- Any resume improvements needed\n- Networking or preparation tips]\n\n"

/-- Closing line of the prompt template. -/
def promptTail : String :=
  "Be specific, actionable, and encouraging. Use emojis sparingly for better readability."

/-- The prompt f-string shared verbatim by both provider variants
(`app.py` line 68 and `api/analyze.py` line 30): the fixed template with
the job posting and resume interpolated. -/
def build_prompt (job_posting resume : String) : String :=
  promptPre ++ job_posting ++ promptMid ++ resume ++ secIntro ++
    head1 ++ body1 ++ head2 ++ body2 ++ head3 ++ body3 ++
    head4 ++ body4 ++ head5 ++ body5 ++ head6 ++ body6 ++ promptTail

/-- System instruction prepended by the Gemini variant when building the
single content part (`api/analyze.py` line 88). -/
def geminiSystemText : String :=
  "You are an expert career advisor with deep knowledge of job markets, hiring trends, and career development. Provide detailed, actionable, and encouraging feedback."

/-- The full text the Gemini variant places in the request payload:
system instruction, a blank line, then the shared prompt. -/
def geminiRequestText (job_posting resume : String) : String :=
  geminiSystemText ++ "\n\n" ++ build_prompt job_posting resume

/-- Substring-in-order predicate: the listed strings all occur in `s`,
pairwise disjointly, in the listed order. -/
def containsInOrder : List String → String → Prop
  | [], _ => True
  | t :: ts, s => ∃ a b : String, s = a ++ (t ++ b) ∧ containsInOrder ts b

/-! ## Python-side primitives -/

/-- Python truthiness test for an optional string (`if not x:`):
falsy when the value is absent (None) or the empty string. -/
@[reducible] def optFalsy (o : Option String) : Prop := o = none ∨ o = some ""

/-- Whether `pat` is a prefix of `s`, character by character. -/
def hasPre : List Char → List Char → Bool
  | [], _ => true
  | _ :: _, [] => false
  | p :: ps, c :: cs => p == c && hasPre ps cs

/-- Whether `pat` occurs contiguously inside `s`. -/
def subStr (pat : List Char) : List Char → Bool
  | [] => hasPre pat []
  | c :: t => hasPre pat (c :: t) || subStr pat (t)

/-- Embedding of the Python membership test `pat in s` on strings. -/
def strIn (pat s : String) : Bool := subStr pat.data s.data

/-- Embedding of Python `str.lower()` (ASCII range, the range exercised by
the classifier patterns). -/
def pyLower (s : String) : String := String.mk (s.data.map Char.toLower)

/-- Character of `s` at index `i` (blank beyond the end). -/
def charAt (s : String) (i : Nat) : Char := s.data.getD i ' '

/-! ## Result dictionaries -/

/-- The dictionary returned by the Gemini adapter: at most one `analysis`
entry and at most one `error` entry, mirroring the literal Python dicts. -/
structure ResultDict where
  analysis : Option String
  error : Option String
deriving DecidableEq

/-- The Python literal `{"analysis": t}`. -/
def dictAnalysis (t : String) : ResultDict := ⟨some t, none⟩

/-- The Python literal `{"error": m}`. -/
def dictError (m : String) : ResultDict := ⟨none, some m⟩

/-! ## Gemini response envelope (`api/analyze.py`) -/

/-- One element of the `parts` array; `text = none` models a missing
`"text"` key. -/
structure GeminiPart where
  text : Option String
deriving DecidableEq

/-- The `content` object; `parts = none` models a missing `"parts"` key. -/
structure GeminiContent where
  parts : Option (List GeminiPart)
deriving DecidableEq

/-- One element of the `candidates` array; `content = none` models a
missing `"content"` key. -/
structure GeminiCandidate where
  content : Option GeminiContent
deriving DecidableEq

/-- The parsed JSON body of a 2xx Gemini response; `candidates = none`
models a missing `"candidates"` key. -/
structure GeminiResult where
  candidates : Option (List GeminiCandidate)
deriving DecidableEq

/-- The Python exceptions that can surface inside the adapter's `try`
block: `requests.exceptions.HTTPError` (with the response status code when
a response object is attached), `requests.exceptions.Timeout`, other
`requests.exceptions.RequestException`s, and any other `Exception`
carrying its `str(e)` text. -/
inductive PyExc where
  | httpError (status : Option Nat) (msg : String)
  | timeoutExc
  | requestExc (msg : String)
  | otherExc (msg : String)
deriving DecidableEq

/-- Outcome of the single `requests.post` + `raise_for_status` + `.json()`
interaction: either an exception was raised, or a parsed JSON body was
returned. -/
inductive GeminiCallOutcome where
  | raised (e : PyExc)
  | returned (r : GeminiResult)
deriving DecidableEq

/-! ## Gemini adapter messages (`api/analyze.py` lines 113-143) -/

/-- Message returned when no API key is configured. -/
def gemNoKeyMsg : String := "Gemini API key not configured."

/-- EmptyResponse stage 1: missing or empty `candidates` list. -/
def gemEmptyCandidatesMsg : String :=
  "Received empty response from Gemini API. Please try again."

/-- EmptyResponse stage 2: first candidate lacks the `content.parts` path. -/
def gemBadFormatMsg : String :=
  "Unexpected response format from Gemini API. Please try again."

/-- EmptyResponse stage 3: first part carries empty text. -/
def gemEmptyTextMsg : String :=
  "Received empty response from the model. Please try again."

/-- Remediation message for HTTP status 429. -/
def gemRateMsg : String :=
  "⚠️ **Rate Limit Reached**: You\x27ve exceeded the API rate limit. Please wait a moment and try again.\n\nTip: Check your Gemini API quota in the Google Cloud Console."

/-- Remediation message for HTTP status 401 or 403. -/
def gemAuthMsg : String :=
  "⚠️ **Authentication Error**: Invalid API key. Please check your Gemini API key and ensure it\x27s correctly configured.\n\nTip: Get your API key from [Google AI Studio](https://makersuite.google.com/app/apikey)"

/-- Constant head of the HTTP 404 remediation message. -/
def gemModelMsgPre : String := "⚠️ **Model Not Available**: The model \x27"

/-- Constant middle of the HTTP 404 remediation message. -/
def gemModelMsgMid : String :=
  "\x27 is not available or doesn\x27t exist.\n\n**Solutions:**\n1. Try using \x27gemini-pro\x27 or \x27gemini-1.5-pro\x27\n2. Check available models at [Google AI Studio](https://makersuite.google.com/app/apikey)\n\nOriginal error: "

/-- Remediation message for HTTP status 404, echoing the requested model
and the raw error text. -/
def gemModelMsg (model errMsg : String) : String :=
  gemModelMsgPre ++ model ++ gemModelMsgMid ++ errMsg

/-- Python `str(status_code)` where the status may be absent (None). -/
def statusRepr : Option Nat → String
  | none => "None"
  | some n => toString n

/-- Constant head of the catch-all HTTP status remediation message. -/
def gemOtherStatusMsgPre : String := "⚠️ **API Error** (Status "

/-- Remediation message for any other HTTP status. -/
def gemOtherStatusMsg (status : Option Nat) (errMsg : String) : String :=
  gemOtherStatusMsgPre ++ statusRepr status ++ "): " ++ errMsg ++
    "\n\nPlease check your API key and try again."

/-- Message returned for `requests.exceptions.Timeout`. -/
def gemTimeoutMsg : String :=
  "Error: Request timed out. The API took too long to respond. Please try again."

/-- Constant head of the network-error message. -/
def gemNetworkMsgPre : String := "Error: Network error occurred. "

/-- Message returned for other `requests.exceptions.RequestException`s. -/
def gemNetworkMsg (errMsg : String) : String :=
  gemNetworkMsgPre ++ errMsg ++
    "\n\nPlease check your internet connection and API URL configuration."

/-- Constant head of the generic catch-all message. -/
def gemCatchAllMsgPre : String := "Error: "

/-- Message returned by the final `except Exception` handler. -/
def gemCatchAllMsg (errMsg : String) : String :=
  gemCatchAllMsgPre ++ errMsg ++
    "\n\n💡 **Tips**:\n- Check that your Gemini API key is valid\n- Verify the API URL is correct in your .env file\n- Ensure you have API access enabled"

namespace Gemini

/-- The chain of `except` clauses of `analyze_job_application`
(`api/analyze.py` lines 125-143), applied to a raised exception. -/
def handleExc (model : String) : PyExc → ResultDict
  | .httpError status errMsg =>
    if status = some 429 then dictError gemRateMsg
    else if status = some 401 ∨ status = some 403 then dictError gemAuthMsg
    else if status = some 404 then dictError (gemModelMsg model errMsg)
    else dictError (gemOtherStatusMsg status errMsg)
  | .timeoutExc => dictError gemTimeoutMsg
  | .requestExc m => dictError (gemNetworkMsg m)
  | .otherExc m => dictError (gemCatchAllMsg m)

/-- Outcome of the statements inside the `try` block after the response
body is available: either a value is returned, or an exception is raised
(to be caught by the `except` chain). -/
inductive TryOutcome where
  | ret (d : ResultDict)
  | raised (e : PyExc)
deriving DecidableEq

/-- The response-extraction steps of `analyze_job_application`
(`api/analyze.py` lines 112-124).  Indexing `parts[0]` on an empty list
raises `IndexError("list index out of range")`; reading a missing
`"text"` key raises `KeyError`, whose `str` is the quoted key. -/
def extract (result : GeminiResult) : TryOutcome :=
  match result.candidates with
  | none => .ret (dictError gemEmptyCandidatesMsg)
  | some [] => .ret (dictError gemEmptyCandidatesMsg)
  | some (c :: _) =>
    match c.content with
    | none => .ret (dictError gemBadFormatMsg)
    | some ct =>
      match ct.parts with
      | none => .ret (dictError gemBadFormatMsg)
      | some [] => .raised (.otherExc "list index out of range")
      | some (p :: _) =>
        match p.text with
        | none => .raised (.otherExc "\x27text\x27")
        | some t =>
          if t = "" then .ret (dictError gemEmptyTextMsg)
          else .ret (dictAnalysis t)

/-- The Gemini provider adapter (`api/analyze.py` lines 21-143).  The
second component records whether the outbound network request was
dispatched.  Every exception raised inside the `try` block is routed
through `handleExc`: the trailing `except Exception` clause means no
exception escapes the function. -/
def analyze_job_application (job_posting resume model : String)
    (api_key : Option String) (call : GeminiCallOutcome) : ResultDict × Bool :=
  if optFalsy api_key then (dictError gemNoKeyMsg, false)
  else
    match call with
    | .raised e => (handleExc model e, true)
    | .returned r =>
      match extract r with
      | .ret d => (d, true)
      | .raised e => (handleExc model e, true)

/-! ## HTTP handler (`api/analyze.py` lines 145-206) -/

/-- The body of a POST request as the handler sees it: JSON parsing can
fail (`json.JSONDecodeError`), reading can fail with some other exception,
or a JSON object is obtained whose three relevant fields may each be
absent. -/
inductive PostBody where
  | malformed
  | readFailed (msg : String)
  | fields (job_posting resume model : Option String)
deriving DecidableEq

/-- An HTTP response as assembled by the handler: status code, the
`Access-Control-Allow-Origin` header value if sent, and the JSON body if
one is written. -/
structure HttpResp where
  status : Nat
  corsAllowOrigin : Option String
  body : Option ResultDict
deriving DecidableEq

/-- Handler message for a missing job posting or resume. -/
def missingFieldsMsg : String := "Please provide both job posting and resume."

/-- Handler message for a missing `GEMINI_API_KEY` environment variable. -/
def noKeyEnvMsg : String :=
  "Gemini API key is not configured. Please set GEMINI_API_KEY environment variable."

/-- Handler message for a malformed JSON body. -/
def badJsonMsg : String := "Invalid JSON in request body"

/-- Handler message for any other exception during request handling. -/
def internalErrMsg (m : String) : String := "Internal server error: " ++ m

/-- The `do_OPTIONS` method: 200 with CORS headers and no body. -/
def do_OPTIONS : HttpResp := ⟨200, some "*", none⟩

/-- The `do_POST` method (`api/analyze.py` lines 158-205).  `envKey` is
the value of `GEMINI_API_KEY`; `call` is the outcome the network would
produce if the adapter dispatches a request.  The second component records
whether the provider adapter was invoked. -/
def do_POST (req : PostBody) (envKey : Option String)
    (call : GeminiCallOutcome) : HttpResp × Bool :=
  match req with
  | .malformed => (⟨400, some "*", some (dictError badJsonMsg)⟩, false)
  | .readFailed m => (⟨500, some "*", some (dictError (internalErrMsg m))⟩, false)
  | .fields j r m =>
    let job_posting := j.getD ""
    let resume := r.getD ""
    let model := m.getD "gemini-pro"
    if job_posting = "" ∨ resume = "" then
      (⟨400, some "*", some (dictError missingFieldsMsg)⟩, false)
    else if optFalsy envKey then
      (⟨500, some "*", some (dictError noKeyEnvMsg)⟩, false)
    else
      let result := (analyze_job_application job_posting resume model envKey call).1
      (⟨if result.error.isSome then 400 else 200, some "*", some result⟩, true)

end Gemini

/-! ## OpenRouter variant (`app.py`) -/

/-- Message returned when no OpenRouter API key is configured. -/
def orNoKeyMsg : String :=
  "Error: OpenRouter API key not configured. Please set it in the sidebar or .env file."

/-- Message returned when the completion list or message content is empty. -/
def orEmptyMsg : String :=
  "Error: Received empty response from the model. This might be due to rate limiting on free models. Please try again in a moment or use a paid model."

/-- Rate-limit remediation message of the OpenRouter classifier. -/
def orRateMsg : String :=
  "⚠️ **Rate Limit Reached**: Free models have usage limits (50/day, 1,000/day with $10+ credits). Please wait or consider using a paid model.\n\nTip: Check your usage at [openrouter.ai/activity](https://openrouter.ai/activity)"

/-- Embedding of `model.split(\x27:\x27)[0]`: the characters before the
first colon. -/
def modelBase (model : String) : String :=
  String.mk (model.data.takeWhile (fun c => c != ':'))

/-- Constant head of the model-unavailable remediation message. -/
def orModelMsgPre : String := "⚠️ **Model Not Available**: The model \x27"

/-- Constant middle of the model-unavailable remediation message. -/
def orModelMsgMid : String :=
  "\x27 is not currently available.\n\n**Solutions:**\n1. **Enable Model Training**: Go to [openrouter.ai/settings/privacy](https://openrouter.ai/settings/privacy) and enable \x27Model Training\x27 for free models\n2. **Try a different model**: Some free models may be temporarily unavailable\n3. **Use a paid model**: Remove \x27:free\x27 suffix or select a paid model (more reliable)\n4. **Check model availability**: Visit [openrouter.ai/models](https://openrouter.ai/models) to see available models\n\nOriginal error: "

/-- Model-unavailable remediation message, echoing the model id with the
text after its first colon stripped. -/
def orModelMsg (model errMsg : String) : String :=
  orModelMsgPre ++ modelBase model ++ orModelMsgMid ++ errMsg

/-- Timeout remediation message of the OpenRouter classifier. -/
def orTimeoutMsg (errMsg : String) : String :=
  "Error: Request timed out. Free models may be slow or overloaded. Try:\n1. Use a paid model for faster responses\n2. Retry in a moment\n\nOriginal error: " ++ errMsg

/-- Generic fallback message of the OpenRouter classifier. -/
def orGenericMsg (errMsg : String) : String :=
  "Error: " ++ errMsg ++ "\n\n💡 **Tips**:\n- Enable \x27Model Training\x27 in [Privacy Settings](https://openrouter.ai/settings/privacy) for free models\n- Free models have rate limits (50 requests/day)\n- Paid models are more reliable and faster"

/-- Rule 1 of the classifier: `"rate limit" in error_msg.lower() or "429"
in error_msg`. -/
def orRule1 (errMsg : String) : Bool :=
  strIn "rate limit" (pyLower errMsg) || strIn "429" errMsg

/-- Rule 2 of the classifier: `"404" in error_msg or "no endpoints found"
in error_msg.lower() or "model_not_found" in error_msg.lower()`. -/
def orRule2 (errMsg : String) : Bool :=
  strIn "404" errMsg || strIn "no endpoints found" (pyLower errMsg) ||
    strIn "model_not_found" (pyLower errMsg)

/-- Rule 3 of the classifier: `"timeout" in error_msg.lower()`. -/
def orRule3 (errMsg : String) : Bool := strIn "timeout" (pyLower errMsg)

/-- The ordered substring error classifier: the `except` block of
`analyze_job_application` in `app.py` (lines 135-146), first match wins. -/
def classifyORError (model errMsg : String) : String :=
  if orRule1 errMsg then orRateMsg
  else if orRule2 errMsg then orModelMsg model errMsg
  else if orRule3 errMsg then orTimeoutMsg errMsg
  else orGenericMsg errMsg

/-- Outcome of the OpenRouter chat-completion call: either the list of
choice message contents (None modelling a null content), or a raised
exception with its `str(e)` text. -/
inductive ORCallOutcome where
  | returned (choices : List (Option String))
  | raised (msg : String)
deriving DecidableEq

namespace OpenRouter

/-- The OpenRouter provider adapter (`app.py` lines 60-146), which returns
a plain string: the analysis text on success, an error message otherwise. -/
def analyze_job_application (job_posting resume model : String)
    (api_key : Option String) (call : ORCallOutcome) : String :=
  if optFalsy api_key then orNoKeyMsg
  else
    match call with
    | .returned [] => orEmptyMsg
    | .returned (none :: _) => orEmptyMsg
    | .returned (some t :: _) => if t = "" then orEmptyMsg else t
    | .raised m => classifyORError model m

end OpenRouter

/-! ## Helper lemmas -/

/-- Prepending text preserves ordered containment. -/
theorem containsInOrder_append_left (ts : List String) (a s : String)
    (h : containsInOrder ts s) : containsInOrder ts (a ++ s) := by
  cases ts with
  | nil => trivial
  | cons t ts =>
    obtain ⟨x, b, hxb, hrest⟩ := h
    exact ⟨a ++ x, b, by rw [hxb]; exact (String.append_assoc a x (t ++ b)).symm, hrest⟩

/-- Indexing below the length of the left operand of an append reads from
the left operand. -/
theorem charAt_append (a b : String) (i : Nat) (h : i < a.data.length) :
    charAt (a ++ b) i = charAt a i := by
  show (a ++ b).data.getD i ' ' = a.data.getD i ' '
  rw [String.data_append]
  exact List.getD_append a.data b.data ' ' i h

/-- Characters of a known head survive appending a tail. -/
theorem charAt_of_append (a b : String) (i : Nat) (c : Char)
    (hi : i < a.data.length) (hc : charAt a i = c) : charAt (a ++ b) i = c := by
  rw [charAt_append a b i hi, hc]

/-- Strings differing at one index are distinct. -/
theorem str_ne_of_charAt (s t : String) (i : Nat) (cs ct : Char)
    (hs : charAt s i = cs) (ht : charAt t i = ct) (hne : cs ≠ ct) : s ≠ t := by
  intro h
  subst h
  exact hne (hs.symm.trans ht)

/-- The 404 message of the Gemini adapter starts with its constant head. -/
theorem gemModelMsg_charAt (m e : String) (i : Nat) (c : Char)
    (hi : i < gemModelMsgPre.data.length) (hc : charAt gemModelMsgPre i = c) :
    charAt (gemModelMsg m e) i = c := by
  have h : gemModelMsg m e = gemModelMsgPre ++ (m ++ (gemModelMsgMid ++ e)) := by
    simp only [gemModelMsg, String.append_assoc]
  rw [h]
  exact charAt_of_append _ _ i c hi hc

/-- The catch-all status message of the Gemini adapter starts with its
constant head. -/
theorem gemOtherStatusMsg_charAt (st : Option Nat) (e : String) (i : Nat) (c : Char)
    (hi : i < gemOtherStatusMsgPre.data.length) (hc : charAt gemOtherStatusMsgPre i = c) :
    charAt (gemOtherStatusMsg st e) i = c := by
  have h : gemOtherStatusMsg st e = gemOtherStatusMsgPre ++ (statusRepr st ++
      ("): " ++ (e ++ "\n\nPlease check your API key and try again."))) := by
    simp only [gemOtherStatusMsg, String.append_assoc]
  rw [h]
  exact charAt_of_append _ _ i c hi hc

/-- The network-error message of the Gemini adapter starts with its
constant head. -/
theorem gemNetworkMsg_charAt (e : String) (i : Nat) (c : Char)
    (hi : i < gemNetworkMsgPre.data.length) (hc : charAt gemNetworkMsgPre i = c) :
    charAt (gemNetworkMsg e) i = c := by
  have h : gemNetworkMsg e = gemNetworkMsgPre ++
      (e ++ "\n\nPlease check your internet connection and API URL configuration.") := by
    simp only [gemNetworkMsg, String.append_assoc]
  rw [h]
  exact charAt_of_append _ _ i c hi hc

/-- `takeWhile` keeps a list all of whose elements satisfy the predicate. -/
theorem takeWhile_all {p : Char → Bool} (l : List Char) (h : ∀ c ∈ l, p c = true) :
    l.takeWhile p = l := by
  induction l with
  | nil => rfl
  | cons c t ih =>
    have hc : p c = true := h c (List.mem_cons_self c t)
    have ht : ∀ x ∈ t, p x = true := fun x hx => h x (List.mem_cons_of_mem c hx)
    simp [List.takeWhile_cons, hc, ih ht]

/-- `takeWhile` passes over a fully satisfying head list. -/
theorem takeWhile_append_all {p : Char → Bool} (l₁ l₂ : List Char)
    (h : ∀ c ∈ l₁, p c = true) :
    (l₁ ++ l₂).takeWhile p = l₁ ++ l₂.takeWhile p := by
  induction l₁ with
  | nil => rfl
  | cons c t ih =>
    have hc : p c = true := h c (List.mem_cons_self c t)
    have ht : ∀ x ∈ t, p x = true := fun x hx => h x (List.mem_cons_of_mem c hx)
    simp [List.takeWhile_cons, hc, ih ht]

/-- Stripping at the first colon removes a trailing `:free` suffix from a
colon-free base id. -/
theorem modelBase_append_free (base : String)
    (hb : ∀ c ∈ base.data, (c != ':') = true) :
    modelBase (base ++ ":free") = base := by
  show String.mk (((base ++ ":free") : String).data.takeWhile (fun c => c != ':')) = base
  rw [String.data_append, takeWhile_append_all base.data _ hb]
  rw [show (":free" : String).data.takeWhile (fun c => c != ':') = [] from by decide]
  rw [List.append_nil]

/-- Stripping at the first colon leaves a colon-free id unchanged. -/
theorem modelBase_self (base : String)
    (hb : ∀ c ∈ base.data, (c != ':') = true) :
    modelBase base = base := by
  show String.mk (base.data.takeWhile (fun c => c != ':')) = base
  rw [takeWhile_all base.data hb]

/-- Every raised exception is mapped by the Gemini `except` chain to an
error dictionary. -/
theorem gemini_handleExc_error (model : String) (e : PyExc) :
    ∃ m, Gemini.handleExc model e = dictError m := by
  cases e with
  | httpError st msg =>
    simp only [Gemini.handleExc]
    split_ifs <;> exact ⟨_, rfl⟩
  | timeoutExc => exact ⟨_, rfl⟩
  | requestExc m => exact ⟨_, rfl⟩
  | otherExc m => exact ⟨_, rfl⟩

/-- The extraction step either returns an analysis dictionary, returns an
error dictionary, or raises. -/
theorem gemini_extract_shape (r : GeminiResult) :
    (∃ t, Gemini.extract r = .ret (dictAnalysis t)) ∨
    (∃ m, Gemini.extract r = .ret (dictError m)) ∨
    (∃ e, Gemini.extract r = .raised (.otherExc e)) := by
  obtain ⟨cands⟩ := r
  cases cands with
  | none => exact Or.inr (Or.inl ⟨_, rfl⟩)
  | some l =>
    cases l with
    | nil => exact Or.inr (Or.inl ⟨_, rfl⟩)
    | cons c cs =>
      obtain ⟨ct⟩ := c
      cases ct with
      | none => exact Or.inr (Or.inl ⟨_, rfl⟩)
      | some ctv =>
        obtain ⟨ps⟩ := ctv
        cases ps with
        | none => exact Or.inr (Or.inl ⟨_, rfl⟩)
        | some pl =>
          cases pl with
          | nil => exact Or.inr (Or.inr ⟨_, rfl⟩)
          | cons p pt =>
            obtain ⟨tx⟩ := p
            cases tx with
            | none => exact Or.inr (Or.inr ⟨_, rfl⟩)
            | some t =>
              by_cases ht : t = ""
              · exact Or.inr (Or.inl ⟨gemEmptyTextMsg, by
                  show (if t = "" then Gemini.TryOutcome.ret (dictError gemEmptyTextMsg)
                    else Gemini.TryOutcome.ret (dictAnalysis t)) = _
                  rw [if_pos ht]⟩)
              · exact Or.inl ⟨t, by
                  show (if t = "" then Gemini.TryOutcome.ret (dictError gemEmptyTextMsg)
                    else Gemini.TryOutcome.ret (dictAnalysis t)) = _
                  rw [if_neg ht]⟩

/-! ## Claims -/

/-- Claim C1: for every pair of input strings, the prompt built by both
provider variants (the shared f-string, and the Gemini request text that
prepends the system instruction to it) contains the job posting, the
resume, and the six fixed section headings, in that fixed order, for all
inputs including empty strings and markdown-special characters. -/
theorem build_prompt_contains_inputs_and_headings (job_posting resume : String) :
    containsInOrder [job_posting, resume, head1, head2, head3, head4, head5, head6]
      (build_prompt job_posting resume) ∧
    containsInOrder [job_posting, resume, head1, head2, head3, head4, head5, head6]
      (geminiRequestText job_posting resume) := by
  have hb : build_prompt job_posting resume =
      promptPre ++ (job_posting ++ (promptMid ++ (resume ++ (secIntro ++ (head1 ++
        (body1 ++ (head2 ++ (body2 ++ (head3 ++ (body3 ++ (head4 ++ (body4 ++ (head5 ++
        (body5 ++ (head6 ++ (body6 ++ promptTail)))))))))))))))) := by
    simp only [build_prompt, String.append_assoc]
  have h : containsInOrder [job_posting, resume, head1, head2, head3, head4, head5, head6]
      (build_prompt job_posting resume) := by
    rw [hb]
    exact ⟨promptPre, _, rfl, promptMid, _, rfl, secIntro, _, rfl, body1, _, rfl,
      body2, _, rfl, body3, _, rfl, body4, _, rfl, body5, _, rfl, trivial⟩
  exact ⟨h, containsInOrder_append_left _ (geminiSystemText ++ "\n\n") _ h⟩

/-- Claim C2 (amended): the three validation stages coded in the Gemini
adapter — missing or empty `candidates`, missing `content`/`parts` path,
empty first-part text — each return a Failure with its own distinct
EmptyResponse message and never a Success; when the `parts` list itself is
empty, however, the adapter raises `IndexError` internally, which the
final catch-all handler converts to the generic failure message, still
never a Success and never an escaped exception. -/
theorem gemini_parse_stage_messages (job_posting resume model k : String) (hk : k ≠ "")
    (cs : List GeminiCandidate) (ps : List GeminiPart) :
    (Gemini.analyze_job_application job_posting resume model (some k)
        (.returned ⟨none⟩)).1 = dictError gemEmptyCandidatesMsg ∧
    (Gemini.analyze_job_application job_posting resume model (some k)
        (.returned ⟨some []⟩)).1 = dictError gemEmptyCandidatesMsg ∧
    (Gemini.analyze_job_application job_posting resume model (some k)
        (.returned ⟨some (⟨none⟩ :: cs)⟩)).1 = dictError gemBadFormatMsg ∧
    (Gemini.analyze_job_application job_posting resume model (some k)
        (.returned ⟨some (⟨some ⟨none⟩⟩ :: cs)⟩)).1 = dictError gemBadFormatMsg ∧
    (Gemini.analyze_job_application job_posting resume model (some k)
        (.returned ⟨some (⟨some ⟨some (⟨some ""⟩ :: ps)⟩⟩ :: cs)⟩)).1 =
      dictError gemEmptyTextMsg ∧
    gemEmptyCandidatesMsg ≠ gemBadFormatMsg ∧
    gemEmptyCandidatesMsg ≠ gemEmptyTextMsg ∧
    gemBadFormatMsg ≠ gemEmptyTextMsg ∧
    (Gemini.analyze_job_application job_posting resume model (some k)
        (.returned ⟨some (⟨some ⟨some []⟩⟩ :: cs)⟩)).1 =
      dictError (gemCatchAllMsg "list index out of range") := by
  have hkey : ¬ optFalsy (some k) := by simp [optFalsy, hk]
  refine ⟨?_, ?_, ?_, ?_, ?_, by decide, by decide, by decide, ?_⟩ <;>
    · unfold Gemini.analyze_job_application
      rw [if_neg hkey]
      rfl

/-- Closed instance of Claim C2's amended theorem at a concrete key and a
response with a missing `candidates` key. -/
theorem gemini_parse_stage_messages_witness :
    ("k" : String) ≠ "" ∧
    (Gemini.analyze_job_application "j" "r" "m" (some "k")
        (.returned ⟨none⟩)).1 = dictError gemEmptyCandidatesMsg :=
  ⟨by decide, (gemini_parse_stage_messages "j" "r" "m" "k" (by decide) [] []).1⟩

/-- Claim C2 as frozen is false at a response whose `parts` list is empty:
the adapter then returns the generic catch-all failure message, which is
none of the three EmptyResponse stage messages. -/
theorem gemini_empty_parts_counterexample :
    (Gemini.analyze_job_application "j" "r" "gemini-pro" (some "k")
        (.returned ⟨some [⟨some ⟨some []⟩⟩]⟩)).1 =
      dictError (gemCatchAllMsg "list index out of range") ∧
    gemCatchAllMsg "list index out of range" ≠ gemEmptyCandidatesMsg ∧
    gemCatchAllMsg "list index out of range" ≠ gemBadFormatMsg ∧
    gemCatchAllMsg "list index out of range" ≠ gemEmptyTextMsg :=
  ⟨rfl, by decide, by decide, by decide⟩

/-- Claim C3: the OpenRouter error classifier applies its substring rules
in fixed first-match-wins order — rate-limit before model-unavailable
before timeout before the generic fallback — so the earliest matching
rule decides the category for every message. -/
theorem openrouter_classifier_rule_order (model errMsg : String) :
    (orRule1 errMsg = true → classifyORError model errMsg = orRateMsg) ∧
    (orRule1 errMsg = false → orRule2 errMsg = true →
      classifyORError model errMsg = orModelMsg model errMsg) ∧
    (orRule1 errMsg = false → orRule2 errMsg = false → orRule3 errMsg = true →
      classifyORError model errMsg = orTimeoutMsg errMsg) ∧
    (orRule1 errMsg = false → orRule2 errMsg = false → orRule3 errMsg = false →
      classifyORError model errMsg = orGenericMsg errMsg) := by
  refine ⟨?_, ?_, ?_, ?_⟩
  · intro h1
    simp [classifyORError, h1]
  · intro h1 h2
    simp [classifyORError, h1, h2]
  · intro h1 h2 h3
    simp [classifyORError, h1, h2, h3]
  · intro h1 h2 h3
    simp [classifyORError, h1, h2, h3]

/-- Closed instance of Claim C3's theorem: a message containing both
`timeout` and `429` classifies as rate-limited. -/
theorem openrouter_classifier_rule_order_witness :
    orRule1 "Connection timeout (status 429)" = true ∧
    orRule3 "Connection timeout (status 429)" = true ∧
    classifyORError "meta-llama/llama-3.1-8b-instruct:free"
        "Connection timeout (status 429)" = orRateMsg :=
  ⟨by decide, by decide,
    (openrouter_classifier_rule_order "meta-llama/llama-3.1-8b-instruct:free"
      "Connection timeout (status 429)").1 (by decide)⟩

/-- Claim C7: whenever the OpenRouter classifier produces its
model-unavailable result, the message echoes the requested model id with
the trailing free-tier suffix stripped: a colon-free base id is echoed
as-is, and `base ++ ":free"` is echoed as `base`. -/
theorem openrouter_model_echo_stripped (base errMsg : String)
    (hb : ∀ c ∈ base.data, (c != ':') = true)
    (h1 : orRule1 errMsg = false) (h2 : orRule2 errMsg = true) :
    classifyORError (base ++ ":free") errMsg =
      orModelMsgPre ++ base ++ orModelMsgMid ++ errMsg ∧
    classifyORError base errMsg =
      orModelMsgPre ++ base ++ orModelMsgMid ++ errMsg := by
  have hs1 : modelBase (base ++ ":free") = base := modelBase_append_free base hb
  have hs2 : modelBase base = base := modelBase_self base hb
  constructor
  · simp [classifyORError, h1, h2, orModelMsg, hs1]
  · simp [classifyORError, h1, h2, orModelMsg, hs2]

/-- Closed instance of Claim C7's theorem at a real free-tier model id. -/
theorem openrouter_model_echo_stripped_witness :
    (∀ c ∈ ("meta-llama/llama-3.1-8b-instruct" : String).data, (c != ':') = true) ∧
    classifyORError ("meta-llama/llama-3.1-8b-instruct" ++ ":free")
        "Error code: 404 - no endpoints found" =
      orModelMsgPre ++ "meta-llama/llama-3.1-8b-instruct" ++ orModelMsgMid ++
        "Error code: 404 - no endpoints found" :=
  ⟨by decide, (openrouter_model_echo_stripped "meta-llama/llama-3.1-8b-instruct"
    "Error code: 404 - no endpoints found" (by decide) (by decide) (by decide)).1⟩

/-- Claim C4: for every HTTP error raised during the Gemini call, the
adapter maps the status code to a failure category with a distinct
remediation message — 429 to rate-limited, 401/403 to auth-failed, 404 to
model-unavailable, every other status (or an absent status) to the
generic status message — and timeouts and network failures are returned
as separate messages distinct from all the HTTP-status messages. -/
theorem gemini_http_status_mapping (job_posting resume model errMsg k : String)
    (hk : k ≠ "") :
    (Gemini.analyze_job_application job_posting resume model (some k)
        (.raised (.httpError (some 429) errMsg))).1 = dictError gemRateMsg ∧
    (Gemini.analyze_job_application job_posting resume model (some k)
        (.raised (.httpError (some 401) errMsg))).1 = dictError gemAuthMsg ∧
    (Gemini.analyze_job_application job_posting resume model (some k)
        (.raised (.httpError (some 403) errMsg))).1 = dictError gemAuthMsg ∧
    (Gemini.analyze_job_application job_posting resume model (some k)
        (.raised (.httpError (some 404) errMsg))).1 = dictError (gemModelMsg model errMsg) ∧
    (∀ s : Nat, s ≠ 429 → s ≠ 401 → s ≠ 403 → s ≠ 404 →
      (Gemini.analyze_job_application job_posting resume model (some k)
        (.raised (.httpError (some s) errMsg))).1 = dictError (gemOtherStatusMsg (some s) errMsg)) ∧
    (Gemini.analyze_job_application job_posting resume model (some k)
        (.raised (.httpError none errMsg))).1 = dictError (gemOtherStatusMsg none errMsg) ∧
    (Gemini.analyze_job_application job_posting resume model (some k)
        (.raised .timeoutExc)).1 = dictError gemTimeoutMsg ∧
    (Gemini.analyze_job_application job_posting resume model (some k)
        (.raised (.requestExc errMsg))).1 = dictError (gemNetworkMsg errMsg) ∧
    gemRateMsg ≠ gemAuthMsg ∧
    (∀ m e, gemRateMsg ≠ gemModelMsg m e) ∧
    (∀ st e, gemRateMsg ≠ gemOtherStatusMsg st e) ∧
    (∀ m e, gemAuthMsg ≠ gemModelMsg m e) ∧
    (∀ st e, gemAuthMsg ≠ gemOtherStatusMsg st e) ∧
    (∀ m e st e2, gemModelMsg m e ≠ gemOtherStatusMsg st e2) ∧
    gemTimeoutMsg ≠ gemRateMsg ∧
    gemTimeoutMsg ≠ gemAuthMsg ∧
    (∀ m e, gemTimeoutMsg ≠ gemModelMsg m e) ∧
    (∀ st e, gemTimeoutMsg ≠ gemOtherStatusMsg st e) ∧
    (∀ x, gemNetworkMsg x ≠ gemRateMsg) ∧
    (∀ x, gemNetworkMsg x ≠ gemAuthMsg) ∧
    (∀ x m e, gemNetworkMsg x ≠ gemModelMsg m e) ∧
    (∀ x st e, gemNetworkMsg x ≠ gemOtherStatusMsg st e) ∧
    (∀ x, gemTimeoutMsg ≠ gemNetworkMsg x) := by
  have hkey : ¬ optFalsy (some k) := by simp [optFalsy, hk]
  have base : ∀ e : PyExc,
      (Gemini.analyze_job_application job_posting resume model (some k) (.raised e)).1 =
        Gemini.handleExc model e := by
    intro e
    unfold Gemini.analyze_job_application
    rw [if_neg hkey]
  exact ⟨by rw [base]; rfl, by rw [base]; rfl, by rw [base]; rfl, by rw [base]; rfl,
    by
      intro s h1 h2 h3 h4
      rw [base]
      simp only [Gemini.handleExc]
      rw [if_neg (by simp [h1]), if_neg (by simp [h2, h3]), if_neg (by simp [h4])],
    by rw [base]; rfl, by rw [base]; rfl, by rw [base]; rfl,
    by decide,
    fun m e => str_ne_of_charAt _ _ 5 'R' 'M' (by decide)
      (gemModelMsg_charAt m e 5 'M' (by decide) (by decide)) (by decide),
    fun st e => str_ne_of_charAt _ _ 5 'R' 'A' (by decide)
      (gemOtherStatusMsg_charAt st e 5 'A' (by decide) (by decide)) (by decide),
    fun m e => str_ne_of_charAt _ _ 5 'A' 'M' (by decide)
      (gemModelMsg_charAt m e 5 'M' (by decide) (by decide)) (by decide),
    fun st e => str_ne_of_charAt _ _ 6 'u' 'P' (by decide)
      (gemOtherStatusMsg_charAt st e 6 'P' (by decide) (by decide)) (by decide),
    fun m e st e2 => str_ne_of_charAt _ _ 5 'M' 'A'
      (gemModelMsg_charAt m e 5 'M' (by decide) (by decide))
      (gemOtherStatusMsg_charAt st e2 5 'A' (by decide) (by decide)) (by decide),
    by decide,
    by decide,
    fun m e => str_ne_of_charAt _ _ 0 'E' '⚠' (by decide)
      (gemModelMsg_charAt m e 0 '⚠' (by decide) (by decide)) (by decide),
    fun st e => str_ne_of_charAt _ _ 0 'E' '⚠' (by decide)
      (gemOtherStatusMsg_charAt st e 0 '⚠' (by decide) (by decide)) (by decide),
    fun x => str_ne_of_charAt _ _ 0 'E' '⚠'
      (gemNetworkMsg_charAt x 0 'E' (by decide) (by decide)) (by decide) (by decide),
    fun x => str_ne_of_charAt _ _ 0 'E' '⚠'
      (gemNetworkMsg_charAt x 0 'E' (by decide) (by decide)) (by decide) (by decide),
    fun x m e => str_ne_of_charAt _ _ 0 'E' '⚠'
      (gemNetworkMsg_charAt x 0 'E' (by decide) (by decide))
      (gemModelMsg_charAt m e 0 '⚠' (by decide) (by decide)) (by decide),
    fun x st e => str_ne_of_charAt _ _ 0 'E' '⚠'
      (gemNetworkMsg_charAt x 0 'E' (by decide) (by decide))
      (gemOtherStatusMsg_charAt st e 0 '⚠' (by decide) (by decide)) (by decide),
    fun x => str_ne_of_charAt _ _ 7 'R' 'N' (by decide)
      (gemNetworkMsg_charAt x 7 'N' (by decide) (by decide)) (by decide)⟩

/-- Closed instance of Claim C4's theorem: a 429 HTTP error at a concrete
key maps to the rate-limit message. -/
theorem gemini_http_status_mapping_witness :
    ("k" : String) ≠ "" ∧
    (Gemini.analyze_job_application "j" "r" "gemini-pro" (some "k")
        (.raised (.httpError (some 429) "boom"))).1 = dictError gemRateMsg :=
  ⟨by decide, (gemini_http_status_mapping "j" "r" "gemini-pro" "boom" "k" (by decide)).1⟩

/-- Claim C5: the Gemini HTTP handler answers a malformed JSON body with
400 and the invalid-JSON error, a successful analysis with 200 and an
`analysis` body, a classified failure with 400 and an `error` body, and
every response it sends — POST on any request, and OPTIONS — carries
`Access-Control-Allow-Origin: *`. -/
theorem gemini_handler_responses :
    (∀ envKey call, Gemini.do_POST .malformed envKey call =
      (⟨400, some "*", some (dictError Gemini.badJsonMsg)⟩, false)) ∧
    (∀ j r m envKey call t,
      j.getD "" ≠ "" → r.getD "" ≠ "" → ¬ optFalsy envKey →
      (Gemini.analyze_job_application (j.getD "") (r.getD "") (m.getD "gemini-pro")
          envKey call).1 = dictAnalysis t →
      Gemini.do_POST (.fields j r m) envKey call =
        (⟨200, some "*", some (dictAnalysis t)⟩, true)) ∧
    (∀ j r m envKey call msg,
      j.getD "" ≠ "" → r.getD "" ≠ "" → ¬ optFalsy envKey →
      (Gemini.analyze_job_application (j.getD "") (r.getD "") (m.getD "gemini-pro")
          envKey call).1 = dictError msg →
      Gemini.do_POST (.fields j r m) envKey call =
        (⟨400, some "*", some (dictError msg)⟩, true)) ∧
    (∀ req envKey call, (Gemini.do_POST req envKey call).1.corsAllowOrigin = some "*") ∧
    Gemini.do_OPTIONS.corsAllowOrigin = some "*" := by
  refine ⟨?_, ?_, ?_, ?_, rfl⟩
  · intro envKey call
    rfl
  · intro j r m envKey call t hj hr hkk hres
    simp only [Gemini.do_POST]
    rw [if_neg (not_or.mpr ⟨hj, hr⟩), if_neg hkk, hres]
    rfl
  · intro j r m envKey call msg hj hr hkk hres
    simp only [Gemini.do_POST]
    rw [if_neg (not_or.mpr ⟨hj, hr⟩), if_neg hkk, hres]
    rfl
  · intro req envKey call
    cases req with
    | malformed => rfl
    | readFailed m => rfl
    | fields j r m =>
      simp only [Gemini.do_POST]
      split_ifs <;> rfl

/-- Closed instance of Claim C5's theorem: a mocked non-empty completion
yields 200 with an `analysis` body. -/
theorem gemini_handler_responses_witness :
    Gemini.do_POST (.fields (some "job") (some "res") none) (some "key")
        (.returned ⟨some [⟨some ⟨some [⟨some "OK"⟩]⟩⟩]⟩) =
      (⟨200, some "*", some (dictAnalysis "OK")⟩, true) :=
  gemini_handler_responses.2.1 (some "job") (some "res") none (some "key")
    (.returned ⟨some [⟨some ⟨some [⟨some "OK"⟩]⟩⟩]⟩) "OK"
    (by decide) (by decide) (by decide) (by decide)

/-- Claim C6: a POST whose job posting or resume field is missing or
empty is answered with 400 and the please-provide-both message, and the
provider adapter is never invoked. -/
theorem gemini_handler_missing_fields (j r m envKey : Option String)
    (call : GeminiCallOutcome) (h : j.getD "" = "" ∨ r.getD "" = "") :
    Gemini.do_POST (.fields j r m) envKey call =
      (⟨400, some "*", some (dictError Gemini.missingFieldsMsg)⟩, false) := by
  simp only [Gemini.do_POST]
  rw [if_pos h]

/-- Closed instance of Claim C6's theorem at an empty resume field. -/
theorem gemini_handler_missing_fields_witness :
    Gemini.do_POST (.fields (some "job") (some "") none) (some "key")
        (.raised .timeoutExc) =
      (⟨400, some "*", some (dictError Gemini.missingFieldsMsg)⟩, false) :=
  gemini_handler_missing_fields (some "job") (some "") none (some "key")
    (.raised .timeoutExc) (Or.inr rfl)

/-- Claim C8: a POST with non-empty job posting and resume but no
configured `GEMINI_API_KEY` is answered with 500 and an explanatory error
body, without invoking the provider adapter. -/
theorem gemini_handler_missing_key (j r m envKey : Option String)
    (call : GeminiCallOutcome) (hj : j.getD "" ≠ "") (hr : r.getD "" ≠ "")
    (hkey : optFalsy envKey) :
    Gemini.do_POST (.fields j r m) envKey call =
      (⟨500, some "*", some (dictError Gemini.noKeyEnvMsg)⟩, false) := by
  simp only [Gemini.do_POST]
  rw [if_neg (not_or.mpr ⟨hj, hr⟩), if_pos hkey]

/-- Closed instance of Claim C8's theorem with the environment variable
unset. -/
theorem gemini_handler_missing_key_witness :
    Gemini.do_POST (.fields (some "job") (some "res") none) none
        (.raised .timeoutExc) =
      (⟨500, some "*", some (dictError Gemini.noKeyEnvMsg)⟩, false) :=
  gemini_handler_missing_key (some "job") (some "res") none none
    (.raised .timeoutExc) (by decide) (by decide) (Or.inl rfl)

/-- Claim C9: for every input and every provider outcome, the Gemini
adapter returns a dictionary with exactly one of the keys `analysis` or
`error` — never both and never neither — and, every modelled exception
being handled by the `except` chain, no exception escapes its boundary. -/
theorem gemini_adapter_result_shape (job_posting resume model : String)
    (api_key : Option String) (call : GeminiCallOutcome) :
    (∃ t, (Gemini.analyze_job_application job_posting resume model api_key call).1 =
      ⟨some t, none⟩) ∨
    (∃ m, (Gemini.analyze_job_application job_posting resume model api_key call).1 =
      ⟨none, some m⟩) := by
  by_cases hkey : optFalsy api_key
  · refine Or.inr ⟨gemNoKeyMsg, ?_⟩
    unfold Gemini.analyze_job_application
    rw [if_pos hkey]
    rfl
  · cases call with
    | raised e =>
      obtain ⟨m, hm⟩ := gemini_handleExc_error model e
      refine Or.inr ⟨m, ?_⟩
      unfold Gemini.analyze_job_application
      rw [if_neg hkey]
      exact hm
    | returned r =>
      have hred : Gemini.analyze_job_application job_posting resume model api_key
          (.returned r) =
          (match Gemini.extract r with
           | Gemini.TryOutcome.ret d => (d, true)
           | Gemini.TryOutcome.raised e => (Gemini.handleExc model e, true)) := by
        unfold Gemini.analyze_job_application
        rw [if_neg hkey]
      rcases gemini_extract_shape r with ⟨t, ht⟩ | ⟨m, hm⟩ | ⟨e, he⟩
      · exact Or.inl ⟨t, by rw [hred, ht]; rfl⟩
      · exact Or.inr ⟨m, by rw [hred, hm]; rfl⟩
      · obtain ⟨m2, hm2⟩ := gemini_handleExc_error model (.otherExc e)
        exact Or.inr ⟨m2, by rw [hred, he]; exact hm2⟩

/-- Claim C10: whatever the inputs and the would-be network outcome, an
absent or empty API key makes the Gemini adapter return the
key-not-configured error immediately, with no network call dispatched. -/
theorem gemini_adapter_no_key_short_circuit (job_posting resume model : String)
    (api_key : Option String) (call : GeminiCallOutcome) (h : optFalsy api_key) :
    Gemini.analyze_job_application job_posting resume model api_key call =
      (dictError gemNoKeyMsg, false) := by
  unfold Gemini.analyze_job_application
  exact if_pos h

/-- Closed instance of Claim C10's theorem with the key absent. -/
theorem gemini_adapter_no_key_short_circuit_witness :
    Gemini.analyze_job_application "job" "resume" "gemini-pro" none
        (.raised .timeoutExc) = (dictError gemNoKeyMsg, false) :=
  gemini_adapter_no_key_short_circuit "job" "resume" "gemini-pro" none
    (.raised .timeoutExc) (Or.inl rfl)
